import Mathlib

/-!
Verification of the audit-sentinel ingestion → detection → remediation pipeline.

This file shallowly embeds the Go source of the repository:
  * `internal/models`            — the data model (Event, Alert, RemediationLog),
  * `internal/storage/repositories.go` — the store contracts (insert-if-absent,
    status update, remediation log insert),
  * `internal/ingestion/ingestor.go`   — `Ingest` (watermark fetch, dedup loop),
  * `internal/detection/engine.go`     — `ProcessEvent` and the three active
    rules (failed-login spike, forbidden sensitive resource, API-key creation),
    together with the PostgreSQL array-text parsing helpers,
  * `internal/remediation/service.go`  — the six remediation entry points,
  * `pkg/scaleway` client              — the no-credential mock event fallback.

Machine integers do not overflow in any of the embedded code paths; times are
modelled as `Int` seconds since the epoch, and UUID values by their canonical
string rendering.  External collaborators (PostgreSQL's array text output, the
google/uuid parser, RFC3339 time rendering) are modelled by explicitly named
definitions whose doc comments state the modelled contract.
-/

/-- Value stored in a raw provider payload (`map[string]any` in Go); the only
payload values the embedded code inspects are strings, so other values are
collapsed into a single opaque constructor. -/
inductive RawVal where
  | str (s : String)
  | other
deriving DecidableEq, Repr

/-- A raw provider payload: a Go `map[string]any` modelled as an association
list with unique keys, first-match lookup. -/
abbrev RawMap : Type := List (String × RawVal)

/-- Go map assignment `m[k] = v`: replace the binding if the key is present,
otherwise add it. -/
def rawSet (m : RawMap) (k : String) (v : RawVal) : RawMap :=
  if (List.any m (fun p => p.1 == k)) then
    List.map (fun p => if p.1 == k then (k, v) else p) m
  else m ++ [(k, v)]

/-- Look up a key in a raw payload (Go `m[k]`). -/
def rawLookup (m : RawMap) (k : String) : Option RawVal :=
  List.lookup k m

/-- Go type assertion `m[k].(string)`: the value must exist and be a string. -/
def rawString (m : RawMap) (k : String) : Option String :=
  match rawLookup m k with
  | some (.str s) => some s
  | _ => none

/-- models.Event — a normalized audit/authentication record as stored in the
events table.  `id` is the generated internal UUID (canonical string form),
`eventID` the provider event id used for dedup. -/
structure Event where
  id : String
  eventID : String
  raw : RawMap
  eventType : String
  actor : String
  resource : String
  ip : String
  region : String
  timestamp : Int
  ingestFailed : Bool
  createdAt : Int
deriving DecidableEq, Repr

/-- Evidence value (`map[string]any` entries built by the rules): integers,
strings, string lists and embedded raw payloads. -/
inductive EvVal where
  | int (n : Int)
  | str (s : String)
  | strList (l : List String)
  | raw (m : List (String × RawVal))
deriving DecidableEq, Repr

/-- models.Alert — a detection finding.  Severity and status are the Go string
constants (`"HIGH"`, `"OPEN"`, ...). -/
structure Alert where
  id : String
  eventRefs : List String
  alertType : String
  severity : String
  userID : String
  description : String
  status : String
  evidence : List (String × EvVal)
  createdAt : Int
  updatedAt : Int
deriving DecidableEq, Repr

/-- models.RemediationLog — an audit record of a corrective action.  `id` and
`alertID` are `none` when the Go code leaves them as `uuid.Nil` (the plain,
non-alert-linked service entry points). -/
structure RemediationLog where
  id : Option String
  alertID : Option String
  actorUser : String
  actionType : String
  payload : List (String × String)
  result : String
deriving DecidableEq, Repr

/-- scaleway.AuditEvent — a provider event as returned by the source adapter's
fetch calls, before conversion to a models.Event. -/
structure AuditEvent where
  id : String
  eventType : String
  actor : String
  resource : String
  ip : String
  timestamp : Int
  source : String
  raw : RawMap
deriving DecidableEq, Repr

/-- Severity constant `models.SeverityHigh`. -/
def SeverityHigh : String := "HIGH"

/-- Severity constant `models.SeverityCritical`. -/
def SeverityCritical : String := "CRITICAL"

/-- Status constant `models.AlertStatusOpen`. -/
def AlertStatusOpen : String := "OPEN"

/-- Status constant `models.AlertStatusInvestigating`. -/
def AlertStatusInvestigating : String := "INVESTIGATING"

/-- Status constant `models.AlertStatusResolved`. -/
def AlertStatusResolved : String := "RESOLVED"

/-- Status constant `models.AlertStatusFalsePositive`. -/
def AlertStatusFalsePositive : String := "FALSE_POSITIVE"

/-- Action type constant `models.ActionTypeLockUser`. -/
def ActionTypeLockUser : String := "lock_user"

/-- Action type constant `models.ActionTypeUnlockUser`. -/
def ActionTypeUnlockUser : String := "unlock_user"

/-- Action type constant `models.ActionTypeRevokeKey`. -/
def ActionTypeRevokeKey : String := "revoke_key"

/-- Go `strings.Contains(s, sub)`: `sub` occurs as a contiguous substring of
`s` (character-level; the embedded inputs are ASCII). -/
def strHasSub (s sub : String) : Bool :=
  List.any s.data.tails (fun t => List.isPrefixOf sub.data t)

/-- Go `strings.ToLower`, character by character. -/
def lowerStr (s : String) : String := ⟨List.map Char.toLower s.data⟩

/-- detection/engine.go `contains`: case-insensitive substring test. -/
def contains (s substr : String) : Bool :=
  strHasSub (lowerStr s) (lowerStr substr)

/-- detection/engine.go `splitArrayString`'s character loop: split on commas
outside double quotes, toggling the in-quotes flag on every `"`, keeping the
quote characters, and dropping empty segments.  `cur` is the accumulator for
the segment being built. -/
def splitGo : List Char → List Char → Bool → List String
  | [], cur, _ => if cur = [] then [] else [⟨cur⟩]
  | c :: restChars, cur, inQ =>
    if c = '"' then splitGo restChars (cur ++ [c]) (!inQ)
    else if c = ',' ∧ inQ = false then
      (if cur = [] then splitGo restChars [] inQ else ⟨cur⟩ :: splitGo restChars [] inQ)
    else splitGo restChars (cur ++ [c]) inQ

/-- detection/engine.go `splitArrayString`: splits a PostgreSQL array body on
commas, respecting double-quoted segments. -/
def splitArrayString (s : String) : List String := splitGo s.data [] false

/-- Go `strings.TrimSpace` on a character list: drop whitespace from both
ends. -/
def trimSpaceChars (cs : List Char) : List Char :=
  (((cs.dropWhile Char.isWhitespace).reverse.dropWhile Char.isWhitespace)).reverse

/-- detection/engine.go `trimQuotes`: trim whitespace, then strip one pair of
surrounding double quotes when present. -/
def trimQuotes (s : String) : String :=
  let t := trimSpaceChars s.data
  if 2 ≤ t.length ∧ t.head? = some '"' ∧ t.getLast? = some '"' then
    ⟨(t.drop 1).dropLast⟩
  else ⟨t⟩

/-- Character class of hexadecimal digits. -/
def isHexDigit (c : Char) : Bool :=
  c.isDigit || ('a' ≤ c && c ≤ 'f') || ('A' ≤ c && c ≤ 'F')

/-- Validity of position `i` of a canonical 36-character UUID string: hyphens
at positions 8, 13, 18 and 23, hex digits elsewhere. -/
def uuidCharOk (i : Nat) (c : Char) : Bool :=
  if i = 8 ∨ i = 13 ∨ i = 18 ∨ i = 23 then c = '-' else isHexDigit c

/-- Models the google/uuid library's `uuid.Parse` (a collaborator outside this
repository) on the canonical hyphenated 36-character form — the only form the
PostgreSQL `uuid::text` rendering produces.  A parsed UUID is modelled by its
lower-cased canonical string. -/
def uuidParse? (s : String) : Option String :=
  if s.length = 36 ∧ List.all ((List.range 36).zip s.data) (fun p => uuidCharOk p.1 p.2) then
    some (lowerStr s)
  else none

/-- detection/engine.go `parseUUIDArray`: parse a PostgreSQL array text into
the list of its valid UUID elements, skipping blanks and invalid entries.
The Go code slices `str[1:len(str)-1]` assuming a braced input; the character
level `drop`/`dropLast` matches it on every input the callers produce. -/
def parseUUIDArray (str : String) : List String :=
  if str = "" ∨ str = "{}" then []
  else
    let inner : List Char := (str.data.drop 1).dropLast
    if inner = [] then []
    else
      List.filterMap (fun part => uuidParse? (trimQuotes part)) (splitGo inner [] false)

/-- detection/engine.go `parseStringArray`: parse a PostgreSQL array text into
its string elements, dropping empties after unquoting. -/
def parseStringArray (str : String) : List String :=
  if str = "" ∨ str = "{}" then []
  else
    let inner : List Char := (str.data.drop 1).dropLast
    if inner = [] then []
    else
      List.filter (fun t => t ≠ "")
        (List.map trimQuotes (splitGo inner [] false))

/-- Comma-join of already-rendered PostgreSQL array elements, character
level. -/
def pgJoinComma : List String → List Char
  | [] => []
  | [s] => s.data
  | s :: restElems => s.data ++ ',' :: pgJoinComma restElems

/-- Models PostgreSQL's decision to double-quote a text array element in the
array's text output: empty strings, `NULL`-like strings, and strings holding
braces, commas, quotes, backslashes or whitespace are quoted. -/
def pgNeedsQuote (s : String) : Bool :=
  s = "" || lowerStr s = "null" ||
    List.any s.data (fun c =>
      c = '{' || c = '}' || c = ',' || c = '"' || c = '\\' || c.isWhitespace)

/-- Models PostgreSQL's escaping inside a quoted array element: backslash
before every `"` and `\`. -/
def pgEscape (s : String) : String :=
  ⟨List.foldr (fun c acc => if c = '"' ∨ c = '\\' then '\\' :: c :: acc else c :: acc) [] s.data⟩

/-- Models the text rendering of one PostgreSQL text array element. -/
def pgElemText (s : String) : String :=
  if pgNeedsQuote s then "\"" ++ pgEscape s ++ "\"" else s

/-- Models `array_agg(<text column>)::text`: the braced, comma-joined list of
rendered elements. -/
def pgStringArrayText (l : List String) : String :=
  ⟨'{' :: pgJoinComma (List.map pgElemText l) ++ ['}']⟩

/-- Models `array_agg(<uuid column>)::text`: UUID values render canonically
and never need quoting. -/
def pgUUIDArrayText (l : List String) : String :=
  ⟨'{' :: pgJoinComma l ++ ['}']⟩

/-- Models `time.Time.Format(time.RFC3339)` (Go standard library) as an
injective rendering of the epoch-second timestamp; the embedded claims only
depend on distinct times rendering distinctly and on value tracking. -/
def timeFormatRFC3339 (t : Int) : String := toString t

/-- config.go default `FAILED_LOGIN_WINDOW_MIN`. -/
def defaultFailedLoginWindowMin : Int := 15

/-- config.go default `FAILED_LOGIN_THRESHOLD`. -/
def defaultFailedLoginThreshold : Int := 5

/-- Rows selected by the FailedLoginRule SQL query: events of the given actor
with type `auth.failed` and `timestamp > NOW() - INTERVAL '<windowMin> minutes'`,
over the events-table contents `db` (in insertion order). -/
def failedLoginWindowRows (db : List Event) (actor : String) (now windowMin : Int) : List Event :=
  List.filter
    (fun r => r.actor == actor && r.eventType == "auth.failed" &&
      decide (now - windowMin * 60 < r.timestamp)) db

/-- Window rows in the `ORDER BY timestamp` order used by the query's
`array_agg` aggregates (stable sort on the timestamp). -/
def failedLoginSortedRows (db : List Event) (actor : String) (now windowMin : Int) : List Event :=
  List.insertionSort (fun a b => a.timestamp ≤ b.timestamp)
    (failedLoginWindowRows db actor now windowMin)

/-- The `event_ids` string the FailedLoginRule scans: `array_agg(id ORDER BY
timestamp)::text`, or the empty string when the aggregate is SQL NULL (no
rows, `sql.NullString.Valid = false`). -/
def failedLoginIdsStr (db : List Event) (actor : String) (now windowMin : Int) : String :=
  if failedLoginWindowRows db actor now windowMin = [] then ""
  else pgUUIDArrayText (List.map Event.id (failedLoginSortedRows db actor now windowMin))

/-- The `ip_addresses` string the FailedLoginRule scans: `array_agg(ip ORDER
BY timestamp)::text`, or the empty string when the aggregate is SQL NULL. -/
def failedLoginIpsStr (db : List Event) (actor : String) (now windowMin : Int) : String :=
  if failedLoginWindowRows db actor now windowMin = [] then ""
  else pgStringArrayText (List.map Event.ip (failedLoginSortedRows db actor now windowMin))

/-- The `eventIDs` the FailedLoginRule references: the parsed aggregate, or
the triggering event's own id when the parse comes back empty (engine.go
lines 161-164). -/
def failedLoginEventRefs (eventIDsStrVal : String) (event : Event) : List String :=
  let parsed := parseUUIDArray eventIDsStrVal
  if parsed = [] then [event.id] else parsed

/-- The `ipAddresses` evidence of the FailedLoginRule: the parsed aggregate,
or the triggering event's own IP when the parse comes back empty (engine.go
lines 166-169). -/
def failedLoginIPList (ipAddressesStrVal : String) (event : Event) : List String :=
  let parsed := parseStringArray ipAddressesStrVal
  if parsed = [] then [event.ip] else parsed

/-- FailedLoginRule.Evaluate after the query scan (engine.go lines 150-193):
threshold comparison, array parsing with single-event fallback, and alert
construction.  `fid` stands for the `uuid.New()` alert id and `now` for the
`time.Now()` creation timestamp. -/
def failedLoginBuild (windowMin threshold failedCount : Int)
    (eventIDsStrVal ipAddressesStrVal : String) (event : Event)
    (fid : String) (now : Int) : List Alert :=
  if threshold ≤ failedCount then
    [{ id := fid
       eventRefs := failedLoginEventRefs eventIDsStrVal event
       alertType := "failed_login_spike"
       severity := SeverityHigh
       userID := event.actor
       description := "Detected " ++ toString failedCount ++ " failed login attempts for user "
         ++ event.actor ++ " within " ++ toString windowMin ++ " minutes (threshold: "
         ++ toString threshold ++ ")"
       status := AlertStatusOpen
       evidence :=
        [("failed_attempts", .int failedCount),
         ("window_minutes", .int windowMin),
         ("threshold", .int threshold),
         ("ip_addresses", .strList (failedLoginIPList ipAddressesStrVal event)),
         ("first_attempt", .str (timeFormatRFC3339 event.timestamp))]
       createdAt := now
       updatedAt := now }]
  else []

/-- FailedLoginRule.Evaluate over the events-table contents `db` at clock
`now`: type/actor guards, the window query, then `failedLoginBuild`. -/
def failedLoginEvaluate (windowMin threshold : Int) (db : List Event)
    (event : Event) (fid : String) (now : Int) : List Alert :=
  if event.eventType ≠ "auth.failed" then []
  else if event.actor = "" then []
  else
    failedLoginBuild windowMin threshold
      (Int.ofNat (failedLoginWindowRows db event.actor now windowMin).length)
      (failedLoginIdsStr db event.actor now windowMin)
      (failedLoginIpsStr db event.actor now windowMin)
      event fid now

/-- The sensitive resource categories of ForbiddenResourceRule, in the order
the rule checks them. -/
def sensitiveResources : List String := ["iam", "secrets", "kms", "secret"]

/-- One iteration of ForbiddenResourceRule's category loop: the event's
resource field (when non-empty) or the raw payload's `resource` string
contains the category, case-insensitively. -/
def sensitiveMatch (event : Event) (cat : String) : Bool :=
  (event.resource ≠ "" && contains event.resource cat) ||
    (match rawString event.raw "resource" with
     | some rawResource => contains rawResource cat
     | none => false)

/-- The resource category ForbiddenResourceRule reports: the first
sensitive category that matches. -/
def matchedSensitiveCategory (event : Event) : Option String :=
  List.find? (sensitiveMatch event) sensitiveResources

/-- ForbiddenResourceRule.Evaluate: only `forbidden` events; a CRITICAL alert
when a sensitive category matches. -/
def forbiddenResourceEvaluate (event : Event) (fid : String) (now : Int) : List Alert :=
  if event.eventType ≠ "forbidden" then []
  else
    match matchedSensitiveCategory event with
    | none => []
    | some resourceType =>
      [{ id := fid
         eventRefs := [event.id]
         alertType := "forbidden_sensitive_resource"
         severity := SeverityCritical
         userID := event.actor
         description := "Forbidden access attempt to sensitive resource (" ++ resourceType
           ++ ") by " ++ event.actor
         status := AlertStatusOpen
         evidence :=
          [("resource_type", .str resourceType),
           ("resource", .str event.resource),
           ("ip_address", .str event.ip),
           ("timestamp", .str (timeFormatRFC3339 event.timestamp)),
           ("raw_event", .raw event.raw)]
         createdAt := now
         updatedAt := now }]

/-- APIKeyCreationRule.Evaluate: a HIGH alert for every `apiKey.create` event,
with key id/name pulled from the raw payload when present. -/
def apiKeyCreationEvaluate (event : Event) (fid : String) (now : Int) : List Alert :=
  if event.eventType ≠ "apiKey.create" then []
  else
    let keyID := match rawString event.raw "key_id" with | some s => s | none => ""
    let keyName := match rawString event.raw "key_name" with | some s => s | none => ""
    [{ id := fid
       eventRefs := [event.id]
       alertType := "api_key_creation"
       severity := SeverityHigh
       userID := event.actor
       description := "New API key created by " ++ event.actor
       status := AlertStatusOpen
       evidence :=
        [("key_id", .str keyID),
         ("key_name", .str keyName),
         ("ip_address", .str event.ip),
         ("timestamp", .str (timeFormatRFC3339 event.timestamp)),
         ("raw_event", .raw event.raw)]
       createdAt := now
       updatedAt := now }]

/-- Outcome of one registered rule's `Evaluate` call on the event under
processing: its `IsActive()` answer and either an error or the returned
alerts.  The engine is written against the `Rule` interface; this is the
abstract view `ProcessEvent` consumes. -/
structure RuleOutcome where
  active : Bool
  result : Except String (List Alert)
deriving Repr

/-- The per-alert `storage.StoreAlert` loop inside `ProcessEvent`: a failing
store (where `storeOk` answers `false`) is skipped and the loop continues. -/
def storeAlertsLoop (storeOk : Alert → Bool) (store : List Alert) : List Alert → List Alert
  | [] => store
  | a :: restAlerts =>
    if storeOk a then storeAlertsLoop storeOk (store ++ [a]) restAlerts
    else storeAlertsLoop storeOk store restAlerts

/-- Engine.ProcessEvent: iterate the registered rules in order, skip inactive
rules, swallow rule errors, store each returned alert individually (swallowing
store failures), and always return without error.  Returns the alert store
contents and the (always absent) error. -/
def processEvent (outcomes : List RuleOutcome) (storeOk : Alert → Bool)
    (store : List Alert) : List Alert × Option String :=
  match outcomes with
  | [] => (store, none)
  | r :: restRules =>
    if r.active = false then processEvent restRules storeOk store
    else
      match r.result with
      | .error _ => processEvent restRules storeOk store
      | .ok alerts => processEvent restRules storeOk (storeAlertsLoop storeOk store alerts)

/-- The alerts one rule contributes to the store, independent of every other
rule: nothing when inactive or erroring, otherwise its returned alerts that
store successfully. -/
def ruleContribution (storeOk : Alert → Bool) (r : RuleOutcome) : List Alert :=
  if r.active then
    match r.result with
    | .ok alerts => List.filter storeOk alerts
    | .error _ => []
  else []

/-- storage/repositories.go `EventExists`: `SELECT COUNT(*) FROM events WHERE
event_id = $1` is positive. -/
def eventExists (store : List Event) (eventID : String) : Bool :=
  List.any store (fun e => e.eventID == eventID)

/-- storage/repositories.go `StoreEvent`: `INSERT ... ON CONFLICT (event_id)
DO NOTHING` — insert-if-absent keyed by the provider event id. -/
def storeEvent (store : List Event) (event : Event) : List Event :=
  if eventExists store event.eventID then store else store ++ [event]

/-- Number of stored events carrying a given provider event id. -/
def countEventID (store : List Event) (eventID : String) : Nat :=
  (List.filter (fun e => e.eventID == eventID) store).length

/-- storage/repositories.go `UpdateAlertStatus`: `UPDATE alerts SET status =
$1, updated_at = $2 WHERE id = $3` — unconditional on the current status. -/
def updateAlertStatus (db : List Alert) (id : String) (status : String) (now : Int) : List Alert :=
  List.map (fun a => if a.id == id then { a with status := status, updatedAt := now } else a) db

/-- api/server.go `updateAlertStatus` handler validation: the requested status
must be one of the four AlertStatus constants; any of the four is accepted,
whatever the alert's current status. -/
def validAlertStatus (s : String) : Bool :=
  s == AlertStatusOpen || s == AlertStatusInvestigating ||
    s == AlertStatusResolved || s == AlertStatusFalsePositive

/-- Collaborator outcomes for one `Ingest` cycle, indexed by the position of
the raw event in the concatenated feed: whether the `EventExists` query
errors, whether `StoreEvent` errors, whether `ProcessEvent` returns an error
(logged and ignored), the `uuid.New()` internal id assigned to the event, and
the `time.Now()` value used for `CreatedAt`. -/
structure IngestOracles where
  existsErr : Nat → Bool
  storeErr : Nat → Bool
  procErr : Nat → Bool
  freshId : Nat → String
  nowC : Int

/-- ingestor.go lines 129-164: annotate the raw payload with its source and
convert a fetched scaleway event into a models.Event (the converted event has
no region: the conversion never sets one). -/
def toModelEvent (fid : String) (nowC : Int) (e : AuditEvent) : Event :=
  let raw := if e.source ≠ "" then rawSet e.raw "source" (.str e.source) else e.raw
  { id := fid, eventID := e.id, raw := raw, eventType := e.eventType,
    actor := e.actor, resource := e.resource, ip := e.ip, region := "",
    timestamp := e.timestamp, ingestFailed := false, createdAt := nowC }

/-- The per-event loop of `Ingestor.Ingest` (lines 117-179): dedup check
(skip on query error or on existing id), conversion, store (skip on store
error), then `ProcessEvent` (whose error never aborts the batch).  Returns
the final event store and the list of events forwarded to the detection
engine, in order. -/
def ingestLoop (o : IngestOracles) : List AuditEvent → Nat → List Event → List Event →
    List Event × List Event
  | [], _, store, processed => (store, processed)
  | e :: restFeed, i, store, processed =>
    if o.existsErr i then ingestLoop o restFeed (i + 1) store processed
    else if eventExists store e.id then ingestLoop o restFeed (i + 1) store processed
    else
      let modelEvent := toModelEvent (o.freshId i) o.nowC e
      if o.storeErr i then ingestLoop o restFeed (i + 1) store processed
      else ingestLoop o restFeed (i + 1) (storeEvent store modelEvent) (processed ++ [modelEvent])

/-- `Ingestor.Ingest`: the two bulk fetches (each may fail, aborting the cycle
before any side effect), the empty-feed early return, then the per-event loop.
The fetch results are inputs (the source adapter is a collaborator); the
watermark read only parameterizes them and a read failure merely widens the
fetch, so it does not appear.  Returns the final event store, the events
forwarded to detection, and the cycle error. -/
def ingest (o : IngestOracles) (store : List Event)
    (auditRes authRes : Except String (List AuditEvent)) :
    List Event × List Event × Option String :=
  match auditRes with
  | .error e => (store, [], some ("failed to fetch audit events: " ++ e))
  | .ok auditEvents =>
    match authRes with
    | .error e => (store, [], some ("failed to fetch authentication events: " ++ e))
    | .ok authEvents =>
      let events := auditEvents ++ authEvents
      if events = [] then (store, [], none)
      else
        let r := ingestLoop o events 0 store []
        (r.1, r.2, none)

/-- remediation/service.go `LockUser`: lock via the client (`clientRes` is the
client call's outcome), write exactly one RemediationLog either way, return
the wrapped client error on failure or the log write's outcome (`logRes`) on
success.  Result: the issued log writes and the returned error. -/
def lockUser (clientRes : Except String Unit) (logRes : Except String Unit)
    (userID actor reason : String) : List RemediationLog × Except String Unit :=
  match clientRes with
  | .error e =>
    ([{ id := none, alertID := none, actorUser := actor, actionType := ActionTypeLockUser,
        payload := [("user_id", userID), ("reason", reason)],
        result := "failed: " ++ e }],
     .error ("failed to lock user: " ++ e))
  | .ok _ =>
    ([{ id := none, alertID := none, actorUser := actor, actionType := ActionTypeLockUser,
        payload := [("user_id", userID), ("reason", reason)],
        result := "success" }],
     logRes)

/-- remediation/service.go `UnlockUser`. -/
def unlockUser (clientRes : Except String Unit) (logRes : Except String Unit)
    (userID actor reason : String) : List RemediationLog × Except String Unit :=
  match clientRes with
  | .error e =>
    ([{ id := none, alertID := none, actorUser := actor, actionType := ActionTypeUnlockUser,
        payload := [("user_id", userID), ("reason", reason)],
        result := "failed: " ++ e }],
     .error ("failed to unlock user: " ++ e))
  | .ok _ =>
    ([{ id := none, alertID := none, actorUser := actor, actionType := ActionTypeUnlockUser,
        payload := [("user_id", userID), ("reason", reason)],
        result := "success" }],
     logRes)

/-- remediation/service.go `RevokeAPIKey`. -/
def revokeAPIKey (clientRes : Except String Unit) (logRes : Except String Unit)
    (keyID actor reason : String) : List RemediationLog × Except String Unit :=
  match clientRes with
  | .error e =>
    ([{ id := none, alertID := none, actorUser := actor, actionType := ActionTypeRevokeKey,
        payload := [("key_id", keyID), ("reason", reason)],
        result := "failed: " ++ e }],
     .error ("failed to revoke API key: " ++ e))
  | .ok _ =>
    ([{ id := none, alertID := none, actorUser := actor, actionType := ActionTypeRevokeKey,
        payload := [("key_id", keyID), ("reason", reason)],
        result := "success" }],
     logRes)

/-- remediation/service.go `LockUserWithAlert` (`fid` is the `uuid.New()` log
id). -/
def lockUserWithAlert (clientRes : Except String Unit) (logRes : Except String Unit)
    (alertID userID actor reason fid : String) : List RemediationLog × Except String Unit :=
  match clientRes with
  | .error e =>
    ([{ id := some fid, alertID := some alertID, actorUser := actor,
        actionType := ActionTypeLockUser,
        payload := [("user_id", userID), ("reason", reason)],
        result := "failed: " ++ e }],
     .error ("failed to lock user: " ++ e))
  | .ok _ =>
    ([{ id := some fid, alertID := some alertID, actorUser := actor,
        actionType := ActionTypeLockUser,
        payload := [("user_id", userID), ("reason", reason)],
        result := "success" }],
     logRes)

/-- remediation/service.go `UnlockUserWithAlert`. -/
def unlockUserWithAlert (clientRes : Except String Unit) (logRes : Except String Unit)
    (alertID userID actor reason fid : String) : List RemediationLog × Except String Unit :=
  match clientRes with
  | .error e =>
    ([{ id := some fid, alertID := some alertID, actorUser := actor,
        actionType := ActionTypeUnlockUser,
        payload := [("user_id", userID), ("reason", reason)],
        result := "failed: " ++ e }],
     .error ("failed to unlock user: " ++ e))
  | .ok _ =>
    ([{ id := some fid, alertID := some alertID, actorUser := actor,
        actionType := ActionTypeUnlockUser,
        payload := [("user_id", userID), ("reason", reason)],
        result := "success" }],
     logRes)

/-- remediation/service.go `RevokeAPIKeyWithAlert`. -/
def revokeAPIKeyWithAlert (clientRes : Except String Unit) (logRes : Except String Unit)
    (alertID keyID actor reason fid : String) : List RemediationLog × Except String Unit :=
  match clientRes with
  | .error e =>
    ([{ id := some fid, alertID := some alertID, actorUser := actor,
        actionType := ActionTypeRevokeKey,
        payload := [("key_id", keyID), ("reason", reason)],
        result := "failed: " ++ e }],
     .error ("failed to revoke API key: " ++ e))
  | .ok _ =>
    ([{ id := some fid, alertID := some alertID, actorUser := actor,
        actionType := ActionTypeRevokeKey,
        payload := [("key_id", keyID), ("reason", reason)],
        result := "success" }],
     logRes)

/-- One synthetic mock event of `Client.mockEvents`, sharing the id base
`eventIDBase = now.Unix()`.  `offMin` is the age in minutes. -/
def mkMockID (now : Int) (suffix : String) : String :=
  "evt_mock_" ++ toString now ++ "_" ++ suffix

/-- pkg/scaleway `Client.mockEvents`: the fixed synthetic event set, timed
relative to the current clock `now` (Unix seconds) and filtered to events
strictly newer than `since`.  The source of every event is the requested
logical source. -/
def mockEvents (now : Int) (since : Option Int) (source : String) : List AuditEvent :=
  let mock : List AuditEvent :=
    [{ id := mkMockID now "001", eventType := "auth.failed", actor := "user@example.com",
       resource := "iam", ip := "203.0.113.1", timestamp := now - 10 * 60, source := source,
       raw := [("event_id", .str (mkMockID now "001")), ("type", .str "auth.failed"),
               ("actor", .str "user@example.com"), ("reason", .str "invalid_credentials")] },
     { id := mkMockID now "002", eventType := "auth.failed", actor := "user@example.com",
       resource := "iam", ip := "203.0.113.1", timestamp := now - 8 * 60, source := source,
       raw := [("event_id", .str (mkMockID now "002")), ("type", .str "auth.failed"),
               ("actor", .str "user@example.com"), ("reason", .str "invalid_credentials")] },
     { id := mkMockID now "003", eventType := "auth.failed", actor := "user@example.com",
       resource := "iam", ip := "203.0.113.2", timestamp := now - 5 * 60, source := source,
       raw := [("event_id", .str (mkMockID now "003")), ("type", .str "auth.failed"),
               ("actor", .str "user@example.com"), ("reason", .str "invalid_credentials")] },
     { id := mkMockID now "006", eventType := "auth.failed", actor := "user@example.com",
       resource := "iam", ip := "203.0.113.1", timestamp := now - 4 * 60, source := source,
       raw := [("event_id", .str (mkMockID now "006")), ("type", .str "auth.failed"),
               ("actor", .str "user@example.com"), ("reason", .str "invalid_credentials")] },
     { id := mkMockID now "007", eventType := "auth.failed", actor := "user@example.com",
       resource := "iam", ip := "203.0.113.3", timestamp := now - 2 * 60, source := source,
       raw := [("event_id", .str (mkMockID now "007")), ("type", .str "auth.failed"),
               ("actor", .str "user@example.com"), ("reason", .str "invalid_credentials")] },
     { id := mkMockID now "004", eventType := "apiKey.create", actor := "admin@example.com",
       resource := "iam", ip := "198.51.100.1", timestamp := now - 3 * 60, source := source,
       raw := [("event_id", .str (mkMockID now "004")), ("type", .str "apiKey.create"),
               ("actor", .str "admin@example.com"), ("key_id", .str "key_abc123"),
               ("key_name", .str "Production API Key")] },
     { id := mkMockID now "005", eventType := "forbidden", actor := "attacker@example.com",
       resource := "secrets", ip := "192.0.2.1", timestamp := now - 1 * 60, source := source,
       raw := [("event_id", .str (mkMockID now "005")), ("type", .str "forbidden"),
               ("actor", .str "attacker@example.com"),
               ("resource", .str "secrets/database-password"), ("action", .str "read")] }]
  match since with
  | none => mock
  | some s => List.filter (fun evt => decide (s < evt.timestamp)) mock

/-- pkg/scaleway `Client.FetchAuditEvents` in the no-API-key configuration:
returns the mock event set with source `"audit"`, never an error.  `now` is
the clock reading at the moment of the call. -/
def fetchAuditEventsNoKey (now : Int) (since : Option Int) : List AuditEvent :=
  mockEvents now since "audit"

/-- Modelled from the spec's words, as the refinement target of the
forbidden-sensitive-resource condition: the event's resource field or the raw
payload's `resource` string case-insensitively contains one of the sensitive
categories. -/
def specSensitiveHit (event : Event) : Bool :=
  List.any sensitiveResources (fun cat =>
    contains event.resource cat ||
      (match rawString event.raw "resource" with
       | some rawResource => contains rawResource cat
       | none => false))


/-- A concrete stored `auth.failed` event for one actor, used to instantiate
the failed-login window below.  `n` (1-9) selects a distinct internal UUID. -/
def sampleEvent (n : Nat) (ts : Int) (ip : String) : Event :=
  { id := "00000000-0000-4000-8000-00000000000" ++ toString n
    eventID := "evt_" ++ toString n
    raw := []
    eventType := "auth.failed"
    actor := "alice"
    resource := ""
    ip := ip
    region := ""
    timestamp := ts
    ingestFailed := false
    createdAt := 0 }

/-- A concrete events table holding four failed logins for `alice` inside the
15-minute window ending at clock 1000. -/
def sampleDb4 : List Event :=
  [sampleEvent 1 400 "9.9.9.9", sampleEvent 2 500 "9.9.9.9",
   sampleEvent 3 600 "8.8.8.8", sampleEvent 4 700 "9.9.9.9"]

/-- The same table after a fifth failed login (the triggering event, latest in
the window, with a repeated source IP). -/
def sampleDb5 : List Event := sampleDb4 ++ [sampleEvent 5 940 "8.8.8.8"]

/-- The triggering (fifth, latest) failed login. -/
def sampleTrigger : Event := sampleEvent 5 940 "8.8.8.8"

/-- A concrete `forbidden` event on a sensitive resource. -/
def forbiddenSample : Event :=
  { id := "00000000-0000-4000-8000-000000000009"
    eventID := "evt_forbidden"
    raw := [("resource", .str "secrets/db-password")]
    eventType := "forbidden"
    actor := "mallory"
    resource := "secrets/db-password"
    ip := "192.0.2.9"
    region := ""
    timestamp := 940
    ingestFailed := false
    createdAt := 0 }

/-- A concrete `apiKey.create` event. -/
def apiKeySample : Event :=
  { id := "00000000-0000-4000-8000-000000000008"
    eventID := "evt_key"
    raw := [("key_id", .str "key_abc123"), ("key_name", .str "Production API Key")]
    eventType := "apiKey.create"
    actor := "admin@example.com"
    resource := "iam"
    ip := "198.51.100.1"
    region := ""
    timestamp := 950
    ingestFailed := false
    createdAt := 0 }

/-- A concrete already-stored event with provider id `evt_dup`. -/
def dupStored : Event :=
  { id := "00000000-0000-4000-8000-000000000007"
    eventID := "evt_dup"
    raw := []
    eventType := "auth.failed"
    actor := "alice"
    resource := ""
    ip := "9.9.9.9"
    region := ""
    timestamp := 100
    ingestFailed := false
    createdAt := 0 }

/-- A fetched feed event whose provider id collides with `dupStored`. -/
def dupFeedEvent : AuditEvent :=
  { id := "evt_dup"
    eventType := "auth.failed"
    actor := "alice"
    resource := ""
    ip := "9.9.9.9"
    timestamp := 200
    source := "audit"
    raw := [] }

/-- Ingest collaborator outcomes with no storage failures. -/
def happyOracles : IngestOracles :=
  { existsErr := fun _ => false
    storeErr := fun _ => false
    procErr := fun _ => false
    freshId := fun _ => "00000000-0000-4000-8000-000000000006"
    nowC := 0 }

/-- A concrete stored alert sitting in the terminal `RESOLVED` status. -/
def resolvedAlert : Alert :=
  { id := "00000000-0000-4000-8000-000000000005"
    eventRefs := ["00000000-0000-4000-8000-000000000009"]
    alertType := "forbidden_sensitive_resource"
    severity := SeverityCritical
    userID := "mallory"
    description := "d"
    status := AlertStatusResolved
    evidence := []
    createdAt := 0
    updatedAt := 0 }

theorem dropWhile_eq_self_of_no_hit {p : Char → Bool} :
    ∀ cs : List Char, (∀ c ∈ cs, p c = false) → List.dropWhile p cs = cs := by
  intro cs h
  cases cs with
  | nil => rfl
  | cons c rest =>
    have hc : p c = false := h c (by simp)
    simp [List.dropWhile, hc]

theorem trimSpaceChars_eq_self {cs : List Char}
    (h : ∀ c ∈ cs, c.isWhitespace = false) : trimSpaceChars cs = cs := by
  unfold trimSpaceChars
  rw [dropWhile_eq_self_of_no_hit cs h, dropWhile_eq_self_of_no_hit cs.reverse
    (fun c hc => h c (List.mem_reverse.mp hc)), List.reverse_reverse]

theorem trimQuotes_eq_self {s : String}
    (hws : ∀ c ∈ s.data, c.isWhitespace = false)
    (hq : '"' ∉ s.data) : trimQuotes s = s := by
  have hcond : ¬ (2 ≤ s.data.length ∧ s.data.head? = some '"' ∧ s.data.getLast? = some '"') := by
    intro hcontra
    exact hq (List.mem_of_mem_head? hcontra.2.1)
  simp only [trimQuotes, trimSpaceChars_eq_self hws]
  rw [if_neg hcond]

theorem splitGo_no_special :
    ∀ (x restChars cur : List Char) (inQ : Bool),
      (∀ c ∈ x, c ≠ '"' ∧ c ≠ ',') →
      splitGo (x ++ restChars) cur inQ = splitGo restChars (cur ++ x) inQ := by
  intro x
  induction x with
  | nil => intro restChars cur inQ _; simp
  | cons c rest ih =>
    intro restChars cur inQ h
    have hc : c ≠ '"' ∧ c ≠ ',' := h c (by simp)
    have hrest : ∀ d ∈ rest, d ≠ '"' ∧ d ≠ ',' := fun d hd => h d (by simp [hd])
    have hcomma : ¬ (c = ',' ∧ inQ = false) := fun hcontra => hc.2 hcontra.1
    simp only [List.cons_append, splitGo, if_neg hc.1, if_neg hcomma, List.append_eq]
    rw [ih restChars (cur ++ [c]) inQ hrest]
    simp

theorem splitGo_join_comma :
    ∀ elems : List String,
      (∀ s ∈ elems, s.data ≠ [] ∧ ∀ c ∈ s.data, c ≠ '"' ∧ c ≠ ',') →
      splitGo (pgJoinComma elems) [] false = elems := by
  intro elems
  induction elems with
  | nil => intro _; rfl
  | cons s rest ih =>
    intro h
    have hs := h s (by simp)
    cases rest with
    | nil =>
      show splitGo (pgJoinComma [s]) [] false = [s]
      have h1 : pgJoinComma [s] = s.data ++ [] := by simp [pgJoinComma]
      rw [h1, splitGo_no_special s.data [] [] false hs.2]
      simp [splitGo, hs.1]
    | cons s2 rest2 =>
      show splitGo (s.data ++ ',' :: pgJoinComma (s2 :: rest2)) [] false = s :: s2 :: rest2
      rw [splitGo_no_special s.data (',' :: pgJoinComma (s2 :: rest2)) [] false hs.2]
      have hpos : (',' : Char) = ',' ∧ (false : Bool) = false := ⟨rfl, rfl⟩
      simp only [List.nil_append, splitGo, if_neg (by decide : ¬ ((',' : Char) = '"')),
        if_pos hpos, if_neg hs.1]
      exact congrArg (s :: ·) (ih (fun t ht => h t (by simp [ht])))

theorem pgNeedsQuote_false_chars {s : String} (h : pgNeedsQuote s = false) :
    s.data ≠ [] ∧ ∀ c ∈ s.data, c ≠ '{' ∧ c ≠ '}' ∧ c ≠ ',' ∧ c ≠ '"' ∧ c ≠ '\\' ∧
      c.isWhitespace = false := by
  unfold pgNeedsQuote at h
  rw [Bool.or_eq_false_iff, Bool.or_eq_false_iff] at h
  obtain ⟨⟨h1, _h2⟩, h3⟩ := h
  constructor
  · intro hdata
    rw [decide_eq_false_iff_not] at h1
    exact h1 (show s = "" from congrArg String.mk hdata)
  · intro c hc
    rw [List.any_eq_false] at h3
    have h4 := h3 c hc
    simp only [Bool.or_eq_true, decide_eq_true_eq, not_or, Bool.not_eq_true] at h4
    exact ⟨h4.1.1.1.1.1, h4.1.1.1.1.2, h4.1.1.1.2, h4.1.1.2, h4.1.2, h4.2⟩

theorem pgElemText_simple {s : String} (h : pgNeedsQuote s = false) :
    pgElemText s = s := by
  unfold pgElemText
  rw [h]
  rfl

theorem map_eq_self_of_id {α : Type} {l : List α} {f : α → α}
    (h : ∀ x ∈ l, f x = x) : List.map f l = l := by
  induction l with
  | nil => rfl
  | cons a t ih => simp [h a (by simp), ih (fun x hx => h x (by simp [hx]))]

theorem pgJoinComma_ne_nil {elems : List String} (hne : elems ≠ [])
    (h : ∀ s ∈ elems, s.data ≠ []) : pgJoinComma elems ≠ [] := by
  cases elems with
  | nil => exact absurd rfl hne
  | cons s rest =>
    cases rest with
    | nil => exact h s (by simp)
    | cons s2 rest2 =>
      show s.data ++ ',' :: pgJoinComma (s2 :: rest2) ≠ []
      simp

theorem parseStringArray_pgRoundTrip (ips : List String) (hne : ips ≠ [])
    (hsimple : ∀ s ∈ ips, pgNeedsQuote s = false) :
    parseStringArray (pgStringArrayText ips) = ips := by
  have hchars : ∀ s ∈ ips, s.data ≠ [] ∧ ∀ c ∈ s.data, c ≠ '"' ∧ c ≠ ',' := by
    intro s hs
    have := pgNeedsQuote_false_chars (hsimple s hs)
    exact ⟨this.1, fun c hc => ⟨(this.2 c hc).2.2.2.1, (this.2 c hc).2.2.1⟩⟩
  have hmap : List.map pgElemText ips = ips :=
    map_eq_self_of_id (fun s hs => pgElemText_simple (hsimple s hs))
  have hJ : pgJoinComma (List.map pgElemText ips) = pgJoinComma ips := by rw [hmap]
  have hJne : pgJoinComma ips ≠ [] := pgJoinComma_ne_nil hne (fun s hs => (hchars s hs).1)
  have hdata : (pgStringArrayText ips).data = '{' :: pgJoinComma ips ++ ['}'] := by
    simp [pgStringArrayText, hJ]
  have hne1 : pgStringArrayText ips ≠ "" := by
    intro hcontra
    have := congrArg String.data hcontra
    rw [hdata] at this
    simp at this
  have hne2 : pgStringArrayText ips ≠ "{}" := by
    intro hcontra
    have := congrArg String.data hcontra
    rw [hdata] at this
    have h2 : ("{}" : String).data = ['{', '}'] := rfl
    rw [h2] at this
    have := List.cons_injective.eq_iff.mp this
    exact hJne (by simpa using congrArg List.dropLast this)
  unfold parseStringArray
  rw [if_neg (by intro hcontra; rcases hcontra with hcontra | hcontra
                 exacts [hne1 hcontra, hne2 hcontra])]
  rw [hdata]
  have hinner : (List.drop 1 ('{' :: pgJoinComma ips ++ ['}'])).dropLast = pgJoinComma ips := by
    rw [show List.drop 1 ('{' :: pgJoinComma ips ++ ['}']) = pgJoinComma ips ++ ['}'] from rfl,
      List.dropLast_concat]
  rw [hinner, if_neg hJne]
  rw [splitGo_join_comma ips hchars]
  have htrim : List.map trimQuotes ips = ips := by
    apply map_eq_self_of_id
    intro s hs
    have hcs := pgNeedsQuote_false_chars (hsimple s hs)
    exact trimQuotes_eq_self (fun c hc => (hcs.2 c hc).2.2.2.2.2)
      (fun hq => (hcs.2 '"' hq).2.2.2.1 rfl)
  rw [htrim]
  apply List.filter_eq_self.mpr
  intro s hs
  have := (pgNeedsQuote_false_chars (hsimple s hs)).1
  simp only [ne_eq, decide_eq_true_eq]
  intro hcontra
  exact this (congrArg String.data hcontra)

theorem storeAlertsLoop_eq_filter (storeOk : Alert → Bool) :
    ∀ (alerts store : List Alert),
      storeAlertsLoop storeOk store alerts = store ++ List.filter storeOk alerts := by
  intro alerts
  induction alerts with
  | nil => intro store; simp [storeAlertsLoop]
  | cons a rest ih =>
    intro store
    cases h : storeOk a with
    | true => simp [storeAlertsLoop, h, ih, List.filter_cons]
    | false => simp [storeAlertsLoop, h, ih, List.filter_cons]

/-- C5: `ProcessEvent` visits the registered rules in order and returns no
error; each rule's contribution to the alert store is exactly its own
successfully-stored alerts, independent of any other rule's evaluation error
or of store failures for other alerts, and rule/store errors are never
surfaced to the caller. -/
theorem processEvent_rule_isolation (outcomes : List RuleOutcome) (storeOk : Alert → Bool)
    (store : List Alert) :
    processEvent outcomes storeOk store =
      (store ++ List.flatten (List.map (ruleContribution storeOk) outcomes), none) := by
  induction outcomes generalizing store with
  | nil => simp [processEvent]
  | cons r rest ih =>
    cases hact : r.active with
    | false => simp [processEvent, hact, ih, ruleContribution]
    | true =>
      cases hres : r.result with
      | error e => simp [processEvent, hact, hres, ih, ruleContribution]
      | ok alerts =>
        simp [processEvent, hact, hres, ih, ruleContribution, storeAlertsLoop_eq_filter]

/-- C6: a failure of either bulk fetch aborts the whole `Ingest` cycle with an
error and without side effects (the event store is untouched and no event is
forwarded to detection); an empty concatenated feed returns successfully, also
without side effects. -/
theorem ingest_fetch_atomicity (o : IngestOracles) (store : List Event)
    (msg : String) (auditEvents : List AuditEvent)
    (authRes : Except String (List AuditEvent)) :
    ingest o store (.error msg) authRes =
      (store, [], some ("failed to fetch audit events: " ++ msg)) ∧
    ingest o store (.ok auditEvents) (.error msg) =
      (store, [], some ("failed to fetch authentication events: " ++ msg)) ∧
    ingest o store (.ok []) (.ok []) = (store, [], none) := by
  refine ⟨rfl, rfl, ?_⟩
  simp [ingest]

/-- C9: `UpdateAlertStatus` applies the requested status to the addressed
alert unconditionally — also out of the terminal statuses — rewriting only the
status and updated-at fields, leaving every other alert untouched; the HTTP
handler accepts all four status constants as targets. -/
theorem updateAlertStatus_permissive (db : List Alert) (a : Alert) (target : String)
    (now : Int) (ha : a ∈ db) (_htarget : validAlertStatus target = true) :
    { a with status := target, updatedAt := now } ∈ updateAlertStatus db a.id target now ∧
    (∀ b ∈ db, b.id ≠ a.id → b ∈ updateAlertStatus db a.id target now) ∧
    (validAlertStatus AlertStatusOpen = true ∧ validAlertStatus AlertStatusInvestigating = true ∧
     validAlertStatus AlertStatusResolved = true ∧
     validAlertStatus AlertStatusFalsePositive = true) := by
  refine ⟨?_, ?_, by decide, by decide, by decide, by decide⟩
  · have hmem := List.mem_map_of_mem
      (fun b => if b.id == a.id then { b with status := target, updatedAt := now } else b) ha
    simpa [updateAlertStatus] using hmem
  · intro b hb hne
    have hmem := List.mem_map_of_mem
      (fun x => if x.id == a.id then { x with status := target, updatedAt := now } else x) hb
    have hbeq : (b.id == a.id) = false := by
      simp [hne]
    simpa [updateAlertStatus, hbeq] using hmem

/-- Witness for C9: an alert in the terminal `RESOLVED` status is moved back
to `OPEN` by the direct status set. -/
theorem updateAlertStatus_permissive_witness :
    { resolvedAlert with status := AlertStatusOpen, updatedAt := 7 } ∈
      updateAlertStatus [resolvedAlert] resolvedAlert.id AlertStatusOpen 7 :=
  (updateAlertStatus_permissive [resolvedAlert] resolvedAlert AlertStatusOpen 7
    (by simp) (by decide)).1

/-- C4: every remediation entry point — lock, unlock, revoke, plain or
alert-linked — issues exactly one RemediationLog write per attempt whatever
the outcome; when the client's mutating call fails the log result is
`"failed: "` followed by the error and the (wrapped) error is returned, and
when it succeeds the log result is `"success"` and the log write's own outcome
is what the caller receives. -/
theorem remediation_audit_trail (clientRes logRes : Except String Unit)
    (userID keyID actor reason alertID fid : String) :
    ((lockUser clientRes logRes userID actor reason).1.length = 1 ∧
     (unlockUser clientRes logRes userID actor reason).1.length = 1 ∧
     (revokeAPIKey clientRes logRes keyID actor reason).1.length = 1 ∧
     (lockUserWithAlert clientRes logRes alertID userID actor reason fid).1.length = 1 ∧
     (unlockUserWithAlert clientRes logRes alertID userID actor reason fid).1.length = 1 ∧
     (revokeAPIKeyWithAlert clientRes logRes alertID keyID actor reason fid).1.length = 1) ∧
    (∀ e, clientRes = .error e →
      ((lockUser clientRes logRes userID actor reason).2 =
          .error ("failed to lock user: " ++ e) ∧
       (unlockUser clientRes logRes userID actor reason).2 =
          .error ("failed to unlock user: " ++ e) ∧
       (revokeAPIKey clientRes logRes keyID actor reason).2 =
          .error ("failed to revoke API key: " ++ e) ∧
       (lockUserWithAlert clientRes logRes alertID userID actor reason fid).2 =
          .error ("failed to lock user: " ++ e) ∧
       (unlockUserWithAlert clientRes logRes alertID userID actor reason fid).2 =
          .error ("failed to unlock user: " ++ e) ∧
       (revokeAPIKeyWithAlert clientRes logRes alertID keyID actor reason fid).2 =
          .error ("failed to revoke API key: " ++ e)) ∧
      (List.map RemediationLog.result (lockUser clientRes logRes userID actor reason).1 =
          ["failed: " ++ e] ∧
       List.map RemediationLog.result (unlockUser clientRes logRes userID actor reason).1 =
          ["failed: " ++ e] ∧
       List.map RemediationLog.result (revokeAPIKey clientRes logRes keyID actor reason).1 =
          ["failed: " ++ e] ∧
       List.map RemediationLog.result
          (lockUserWithAlert clientRes logRes alertID userID actor reason fid).1 =
          ["failed: " ++ e] ∧
       List.map RemediationLog.result
          (unlockUserWithAlert clientRes logRes alertID userID actor reason fid).1 =
          ["failed: " ++ e] ∧
       List.map RemediationLog.result
          (revokeAPIKeyWithAlert clientRes logRes alertID keyID actor reason fid).1 =
          ["failed: " ++ e])) ∧
    (∀ u, clientRes = .ok u →
      ((lockUser clientRes logRes userID actor reason).2 = logRes ∧
       (unlockUser clientRes logRes userID actor reason).2 = logRes ∧
       (revokeAPIKey clientRes logRes keyID actor reason).2 = logRes ∧
       (lockUserWithAlert clientRes logRes alertID userID actor reason fid).2 = logRes ∧
       (unlockUserWithAlert clientRes logRes alertID userID actor reason fid).2 = logRes ∧
       (revokeAPIKeyWithAlert clientRes logRes alertID keyID actor reason fid).2 = logRes) ∧
      (List.map RemediationLog.result (lockUser clientRes logRes userID actor reason).1 =
          ["success"] ∧
       List.map RemediationLog.result (unlockUser clientRes logRes userID actor reason).1 =
          ["success"] ∧
       List.map RemediationLog.result (revokeAPIKey clientRes logRes keyID actor reason).1 =
          ["success"] ∧
       List.map RemediationLog.result
          (lockUserWithAlert clientRes logRes alertID userID actor reason fid).1 =
          ["success"] ∧
       List.map RemediationLog.result
          (unlockUserWithAlert clientRes logRes alertID userID actor reason fid).1 =
          ["success"] ∧
       List.map RemediationLog.result
          (revokeAPIKeyWithAlert clientRes logRes alertID keyID actor reason fid).1 =
          ["success"])) := by
  refine ⟨?_, ?_, ?_⟩
  · cases clientRes <;>
      simp [lockUser, unlockUser, revokeAPIKey, lockUserWithAlert, unlockUserWithAlert,
        revokeAPIKeyWithAlert]
  · intro e he
    subst he
    simp [lockUser, unlockUser, revokeAPIKey, lockUserWithAlert, unlockUserWithAlert,
      revokeAPIKeyWithAlert]
  · intro u hu
    subst hu
    simp [lockUser, unlockUser, revokeAPIKey, lockUserWithAlert, unlockUserWithAlert,
      revokeAPIKeyWithAlert]

/-- Witness for C4: a failing `LockUser` call still issues exactly one log,
whose result starts with `failed: `, and the error reaches the caller, while a
succeeding call logs `success`. -/
theorem remediation_audit_trail_witness :
    (lockUser (.error "api down") (.ok ()) "u1" "op" "brute force").1.length = 1 ∧
    (lockUser (.error "api down") (.ok ()) "u1" "op" "brute force").2 =
      .error ("failed to lock user: " ++ "api down") ∧
    List.map RemediationLog.result (lockUser (.error "api down") (.ok ()) "u1" "op" "brute force").1 =
      ["failed: " ++ "api down"] ∧
    List.map RemediationLog.result (lockUser (.ok ()) (.ok ()) "u1" "op" "brute force").1 =
      ["success"] :=
  ⟨(remediation_audit_trail (.error "api down") (.ok ()) "u1" "k1" "op" "brute force" "a1" "f1").1.1,
   ((remediation_audit_trail (.error "api down") (.ok ()) "u1" "k1" "op" "brute force" "a1" "f1").2.1
      "api down" rfl).1.1,
   ((remediation_audit_trail (.error "api down") (.ok ()) "u1" "k1" "op" "brute force" "a1" "f1").2.1
      "api down" rfl).2.1,
   ((remediation_audit_trail (.ok ()) (.ok ()) "u1" "k1" "op" "brute force" "a1" "f1").2.2
      () rfl).2.1⟩

/-- C8 (amended): with no API key configured the audit fetch is a
deterministic function of the `since` filter and of the clock reading at the
call — the event count, types, actors, resources, source IPs and the
timestamp offsets from the clock are fixed, and `since` filters the set the
same way as real data — but the event ids and absolute timestamps embed the
clock reading, so calls at different clock readings (as two consecutive real
calls are) do not return bit-for-bit identical sets. -/
theorem mock_fallback_clock_determinism (now s : Int) :
    List.map (fun e => (e.eventType, e.actor, e.resource, e.ip))
        (fetchAuditEventsNoKey now none) =
      [("auth.failed", "user@example.com", "iam", "203.0.113.1"),
       ("auth.failed", "user@example.com", "iam", "203.0.113.1"),
       ("auth.failed", "user@example.com", "iam", "203.0.113.2"),
       ("auth.failed", "user@example.com", "iam", "203.0.113.1"),
       ("auth.failed", "user@example.com", "iam", "203.0.113.3"),
       ("apiKey.create", "admin@example.com", "iam", "198.51.100.1"),
       ("forbidden", "attacker@example.com", "secrets", "192.0.2.1")] ∧
    List.map AuditEvent.timestamp (fetchAuditEventsNoKey now none) =
      [now - 10 * 60, now - 8 * 60, now - 5 * 60, now - 4 * 60,
       now - 2 * 60, now - 3 * 60, now - 1 * 60] ∧
    List.map AuditEvent.id (fetchAuditEventsNoKey now none) =
      [mkMockID now "001", mkMockID now "002", mkMockID now "003", mkMockID now "006",
       mkMockID now "007", mkMockID now "004", mkMockID now "005"] ∧
    fetchAuditEventsNoKey now (some s) =
      List.filter (fun evt => decide (s < evt.timestamp)) (fetchAuditEventsNoKey now none) :=
  ⟨rfl, rfl, rfl, rfl⟩

/-- Counterexample for C8 as stated: two calls with the same `since` (none)
at clock readings 0 and 1 — as two consecutive calls have distinct clock
readings — return different event sets; not even one event id of the first
call appears in the second. -/
theorem mock_fallback_determinism_cex :
    fetchAuditEventsNoKey 0 none ≠ fetchAuditEventsNoKey 1 none ∧
    mkMockID 0 "001" ∉ List.map AuditEvent.id (fetchAuditEventsNoKey 1 none) := by
  constructor
  · decide
  · decide

theorem eventExists_storeEvent_mono {store : List Event} {me : Event} {d : String}
    (h : eventExists store d = true) : eventExists (storeEvent store me) d = true := by
  unfold storeEvent
  split
  · exact h
  · unfold eventExists at h ⊢
    simp only [List.any_append, h, Bool.true_or]

theorem countEventID_storeEvent_ne {store : List Event} {me : Event} {d : String}
    (hne : me.eventID ≠ d) : countEventID (storeEvent store me) d = countEventID store d := by
  unfold storeEvent
  split
  · rfl
  · unfold countEventID
    rw [List.filter_append]
    simp [hne]

theorem ingestLoop_dedup (o : IngestOracles) (d : String) :
    ∀ (feed : List AuditEvent) (i : Nat) (store processed : List Event),
      eventExists store d = true →
      countEventID (ingestLoop o feed i store processed).1 d = countEventID store d ∧
      ∀ me ∈ (ingestLoop o feed i store processed).2, me ∈ processed ∨ me.eventID ≠ d := by
  intro feed
  induction feed with
  | nil =>
    intro i store processed _
    exact ⟨rfl, fun me hme => Or.inl hme⟩
  | cons e rest ih =>
    intro i store processed hd
    cases h1 : o.existsErr i with
    | true => simpa [ingestLoop, h1] using ih (i + 1) store processed hd
    | false =>
      cases h2 : eventExists store e.id with
      | true => simpa [ingestLoop, h1, h2] using ih (i + 1) store processed hd
      | false =>
        have hne : e.id ≠ d := by
          intro hcontra
          rw [hcontra, hd] at h2
          exact Bool.noConfusion h2
        cases h3 : o.storeErr i with
        | true => simpa [ingestLoop, h1, h2, h3] using ih (i + 1) store processed hd
        | false =>
          have hd' : eventExists (storeEvent store (toModelEvent (o.freshId i) o.nowC e)) d =
              true := eventExists_storeEvent_mono hd
          have hrec := ih (i + 1) (storeEvent store (toModelEvent (o.freshId i) o.nowC e))
            (processed ++ [toModelEvent (o.freshId i) o.nowC e]) hd'
          have hcount : countEventID
              (storeEvent store (toModelEvent (o.freshId i) o.nowC e)) d =
              countEventID store d := countEventID_storeEvent_ne hne
          simp only [ingestLoop, h1, h2, h3, Bool.false_eq_true, if_false]
          refine ⟨hrec.1.trans hcount, ?_⟩
          intro x hx
          rcases hrec.2 x hx with hx' | hx'
          · rcases List.mem_append.mp hx' with hx'' | hx''
            · exact Or.inl hx''
            · right
              rw [List.mem_singleton.mp hx'']
              exact hne
          · exact Or.inr hx'

/-- C1: re-ingestion is idempotent per provider event id — when a fetched
feed holds an event whose provider id already exists in the event store,
`Ingest` never forwards any event with that id to the detection engine, the
store's count of events with that id is unchanged (whatever the collaborator
failure pattern), and the store-level insert is a silent no-op on a duplicate
id. -/
theorem ingest_dedup_idempotent (o : IngestOracles) (store : List Event)
    (auditEvents authEvents : List AuditEvent) (d : String)
    (hd : eventExists store d = true) :
    (∀ me ∈ (ingest o store (.ok auditEvents) (.ok authEvents)).2.1, me.eventID ≠ d) ∧
    countEventID (ingest o store (.ok auditEvents) (.ok authEvents)).1 d =
      countEventID store d ∧
    (∀ ev : Event, ev.eventID = d → storeEvent store ev = store) := by
  have hstore : ∀ ev : Event, ev.eventID = d → storeEvent store ev = store := by
    intro ev hev
    unfold storeEvent
    rw [hev, hd]
    simp
  have hloop := ingestLoop_dedup o d (auditEvents ++ authEvents) 0 store [] hd
  by_cases hempty : auditEvents ++ authEvents = []
  · refine ⟨?_, ?_, hstore⟩ <;> simp [ingest, hempty]
  · refine ⟨?_, ?_, hstore⟩
    · intro me hme
      have hme' : me ∈ (ingestLoop o (auditEvents ++ authEvents) 0 store []).2 := by
        simpa [ingest, hempty] using hme
      rcases hloop.2 me hme' with hx | hx
      · exact absurd hx (List.not_mem_nil me)
      · exact hx
    · have : (ingest o store (.ok auditEvents) (.ok authEvents)).1 =
          (ingestLoop o (auditEvents ++ authEvents) 0 store []).1 := by
        simp [ingest, hempty]
      rw [this]
      exact hloop.1

/-- Witness for C1: a feed re-delivering the already-stored provider id
`evt_dup` forwards nothing to detection and leaves the store's count of that
id at one. -/
theorem ingest_dedup_idempotent_witness :
    (∀ me ∈ (ingest happyOracles [dupStored] (.ok [dupFeedEvent]) (.ok [])).2.1,
      me.eventID ≠ "evt_dup") ∧
    countEventID (ingest happyOracles [dupStored] (.ok [dupFeedEvent]) (.ok [])).1 "evt_dup" =
      countEventID [dupStored] "evt_dup" :=
  ⟨(ingest_dedup_idempotent happyOracles [dupStored] [dupFeedEvent] [] "evt_dup" (by decide)).1,
   (ingest_dedup_idempotent happyOracles [dupStored] [dupFeedEvent] [] "evt_dup" (by decide)).2.1⟩

/-- C2: at the default threshold 5 and 15-minute window, a triggering
`auth.failed` event whose actor has 4 window events (the SQL count, which
includes the already-stored triggering event) raises no alert, while a window
count of 5 raises exactly one `failed_login_spike` alert of HIGH severity
whose `failed_attempts` evidence equals 5. -/
theorem failed_login_threshold_boundary (db : List Event) (e : Event) (fid : String)
    (now : Int) (hty : e.eventType = "auth.failed") (hactor : e.actor ≠ "") :
    ((failedLoginWindowRows db e.actor now defaultFailedLoginWindowMin).length = 4 →
      failedLoginEvaluate defaultFailedLoginWindowMin defaultFailedLoginThreshold
        db e fid now = []) ∧
    ((failedLoginWindowRows db e.actor now defaultFailedLoginWindowMin).length = 5 →
      ∃ a, failedLoginEvaluate defaultFailedLoginWindowMin defaultFailedLoginThreshold
          db e fid now = [a] ∧
        a.alertType = "failed_login_spike" ∧ a.severity = SeverityHigh ∧
        List.lookup "failed_attempts" a.evidence = some (.int 5)) := by
  constructor
  · intro h4
    unfold failedLoginEvaluate
    rw [if_neg (by simp [hty]), if_neg hactor, h4]
    unfold failedLoginBuild
    rw [if_neg (by decide)]
  · intro h5
    unfold failedLoginEvaluate
    rw [if_neg (by simp [hty]), if_neg hactor, h5]
    unfold failedLoginBuild
    rw [if_pos (by decide)]
    exact ⟨_, rfl, rfl, rfl, rfl⟩

/-- Witness for C2: with the concrete window of four failed logins for
`alice` no alert is raised, and the fifth produces exactly one HIGH
`failed_login_spike` alert with `failed_attempts = 5`. -/
theorem failed_login_threshold_boundary_witness :
    failedLoginEvaluate defaultFailedLoginWindowMin defaultFailedLoginThreshold
      sampleDb4 sampleTrigger "f1" 1000 = [] ∧
    (∃ a, failedLoginEvaluate defaultFailedLoginWindowMin defaultFailedLoginThreshold
        sampleDb5 sampleTrigger "f1" 1000 = [a] ∧
      a.alertType = "failed_login_spike" ∧ a.severity = SeverityHigh ∧
      List.lookup "failed_attempts" a.evidence = some (.int 5)) :=
  ⟨(failed_login_threshold_boundary sampleDb4 sampleTrigger "f1" 1000 rfl
      (by decide)).1 (by decide),
   (failed_login_threshold_boundary sampleDb5 sampleTrigger "f1" 1000 rfl
      (by decide)).2 (by decide)⟩

/-- Counterexample for C3 as stated: on a concrete window of five failed
logins for `alice` (earliest at time 400), the alert triggered by the event
at time 940 records `first_attempt = 940` — the triggering event's timestamp,
not the first attempt in the window — and its `ip_addresses` evidence is the
per-attempt list with repeats, not a set of distinct IPs. -/
theorem failed_login_evidence_cex :
    List.map (fun a => List.lookup "first_attempt" a.evidence)
      (failedLoginEvaluate defaultFailedLoginWindowMin defaultFailedLoginThreshold
        sampleDb5 sampleTrigger "f1" 1000) = [some (.str (timeFormatRFC3339 940))] ∧
    (List.map Event.timestamp (failedLoginSortedRows sampleDb5 "alice" 1000
        defaultFailedLoginWindowMin)).head? = some 400 ∧
    timeFormatRFC3339 940 ≠ timeFormatRFC3339 400 ∧
    List.map (fun a => List.lookup "ip_addresses" a.evidence)
      (failedLoginEvaluate defaultFailedLoginWindowMin defaultFailedLoginThreshold
        sampleDb5 sampleTrigger "f1" 1000) =
      [some (.strList ["9.9.9.9", "9.9.9.9", "8.8.8.8", "9.9.9.9", "8.8.8.8"])] ∧
    ¬ List.Nodup ["9.9.9.9", "9.9.9.9", "8.8.8.8", "9.9.9.9", "8.8.8.8"] := by
  refine ⟨by decide, by decide, by decide, by decide, by decide⟩

/-- C3 (amended): every failed-login-spike alert's evidence holds the window
count, the window length, the threshold, the per-attempt source IPs of the
window rows in timestamp order (duplicates retained; shown here for IPs that
need no PostgreSQL quoting), and — under `first_attempt` — the triggering
event's timestamp, not the earliest attempt's. -/
theorem failed_login_evidence (windowMin threshold : Int) (db : List Event) (e : Event)
    (fid : String) (now : Int) (a : Alert)
    (ha : a ∈ failedLoginEvaluate windowMin threshold db e fid now)
    (hpos : 0 < threshold)
    (hsimple : ∀ r ∈ failedLoginWindowRows db e.actor now windowMin,
      pgNeedsQuote r.ip = false) :
    List.lookup "failed_attempts" a.evidence =
      some (.int (Int.ofNat (failedLoginWindowRows db e.actor now windowMin).length)) ∧
    List.lookup "window_minutes" a.evidence = some (.int windowMin) ∧
    List.lookup "threshold" a.evidence = some (.int threshold) ∧
    List.lookup "first_attempt" a.evidence = some (.str (timeFormatRFC3339 e.timestamp)) ∧
    List.lookup "ip_addresses" a.evidence =
      some (.strList (List.map Event.ip (failedLoginSortedRows db e.actor now windowMin))) := by
  by_cases hty : e.eventType = "auth.failed"
  case neg =>
    unfold failedLoginEvaluate at ha
    rw [if_pos (by simp [hty])] at ha
    exact absurd ha (List.not_mem_nil a)
  by_cases hactor : e.actor = ""
  case pos =>
    unfold failedLoginEvaluate at ha
    rw [if_neg (by simp [hty]), if_pos hactor] at ha
    exact absurd ha (List.not_mem_nil a)
  unfold failedLoginEvaluate at ha
  rw [if_neg (by simp [hty]), if_neg hactor] at ha
  unfold failedLoginBuild at ha
  by_cases hth : threshold ≤ Int.ofNat (failedLoginWindowRows db e.actor now windowMin).length
  case neg =>
    rw [if_neg hth] at ha
    exact absurd ha (List.not_mem_nil a)
  rw [if_pos hth] at ha
  have hae := List.mem_singleton.mp ha
  have hrows_ne : failedLoginWindowRows db e.actor now windowMin ≠ [] := by
    intro hcontra
    rw [hcontra] at hth
    simp only [List.length_nil, Int.ofNat_zero] at hth
    exact absurd hth (not_le.mpr hpos)
  have hsort_ne : failedLoginSortedRows db e.actor now windowMin ≠ [] := by
    intro hcontra
    unfold failedLoginSortedRows at hcontra
    have hperm := List.perm_insertionSort (fun a b : Event => a.timestamp ≤ b.timestamp)
      (failedLoginWindowRows db e.actor now windowMin)
    rw [hcontra] at hperm
    exact hrows_ne (List.Perm.nil_eq hperm).symm
  have hlne : List.map Event.ip (failedLoginSortedRows db e.actor now windowMin) ≠ [] := by
    intro hcontra
    exact hsort_ne (List.map_eq_nil_iff.mp hcontra)
  have hlsimple : ∀ s ∈ List.map Event.ip (failedLoginSortedRows db e.actor now windowMin),
      pgNeedsQuote s = false := by
    intro s hs
    obtain ⟨r, hr, hrip⟩ := List.mem_map.mp hs
    have hrrows : r ∈ failedLoginWindowRows db e.actor now windowMin := by
      unfold failedLoginSortedRows at hr
      exact (List.mem_insertionSort _).mp hr
    rw [← hrip]
    exact hsimple r hrrows
  have hparsed : parseStringArray (failedLoginIpsStr db e.actor now windowMin) =
      List.map Event.ip (failedLoginSortedRows db e.actor now windowMin) := by
    unfold failedLoginIpsStr
    rw [if_neg hrows_ne]
    exact parseStringArray_pgRoundTrip _ hlne hlsimple
  have hiplist : failedLoginIPList (failedLoginIpsStr db e.actor now windowMin) e =
      List.map Event.ip (failedLoginSortedRows db e.actor now windowMin) := by
    unfold failedLoginIPList
    rw [hparsed, if_neg hlne]
  subst hae
  refine ⟨?_, ?_, ?_, ?_, ?_⟩ <;> simp [List.lookup, hiplist]

/-- Witness for C3 (amended): on the concrete five-event window the alert's
evidence carries count 5, window 15, threshold 5, the five per-attempt IPs in
timestamp order and the triggering event's timestamp 940. -/
theorem failed_login_evidence_witness :
    ∃ a, a ∈ failedLoginEvaluate defaultFailedLoginWindowMin defaultFailedLoginThreshold
        sampleDb5 sampleTrigger "f1" 1000 ∧
      List.lookup "failed_attempts" a.evidence =
        some (.int (Int.ofNat (failedLoginWindowRows sampleDb5 "alice" 1000
          defaultFailedLoginWindowMin).length)) ∧
      List.lookup "first_attempt" a.evidence = some (.str (timeFormatRFC3339 940)) ∧
      List.lookup "ip_addresses" a.evidence =
        some (.strList (List.map Event.ip (failedLoginSortedRows sampleDb5 "alice" 1000
          defaultFailedLoginWindowMin))) := by
  rcases h0 : failedLoginEvaluate defaultFailedLoginWindowMin defaultFailedLoginThreshold
      sampleDb5 sampleTrigger "f1" 1000 with _ | ⟨a, rest⟩
  · exact absurd h0 (by decide)
  · have hmem : a ∈ failedLoginEvaluate defaultFailedLoginWindowMin
        defaultFailedLoginThreshold sampleDb5 sampleTrigger "f1" 1000 := by
      rw [h0]; exact List.mem_cons_self a rest
    have h := failed_login_evidence defaultFailedLoginWindowMin defaultFailedLoginThreshold
      sampleDb5 sampleTrigger "f1" 1000 a hmem (by decide) (by decide)
    exact ⟨a, List.mem_cons_self a rest, h.1, h.2.2.2.1, h.2.2.2.2⟩

theorem any_congr_mem {α : Type} (l : List α) (p q : α → Bool)
    (h : ∀ x ∈ l, p x = q x) : l.any p = l.any q := by
  induction l with
  | nil => rfl
  | cons a t ih =>
    simp [List.any_cons, h a (by simp), ih (fun x hx => h x (by simp [hx]))]

theorem sensitiveMatch_eq_spec (e : Event) :
    ∀ cat ∈ sensitiveResources,
      (contains e.resource cat ||
        (match rawString e.raw "resource" with
         | some rawResource => contains rawResource cat
         | none => false)) = sensitiveMatch e cat := by
  intro cat hcat
  unfold sensitiveMatch
  by_cases hres : e.resource = ""
  · rw [hres]
    have hfalse : contains "" cat = false := by fin_cases hcat <;> decide
    rw [hfalse]
    simp
  · simp [hres]

theorem specSensitiveHit_eq_any (e : Event) :
    specSensitiveHit e = List.any sensitiveResources (sensitiveMatch e) :=
  any_congr_mem sensitiveResources _ _ (sensitiveMatch_eq_spec e)

/-- C7: the forbidden-sensitive-resource rule fires on no event type other
than `forbidden`; on a `forbidden` event it returns exactly one CRITICAL alert
precisely when the resource field or the raw payload's `resource` string
case-insensitively contains a sensitive category, with the matched category
and the full raw payload in the evidence; and on a `forbidden` event with
resource `secrets/db-password` it is the only active rule to raise an alert
(the failed-login and API-key rules both return none). -/
theorem forbidden_resource_rule (e : Event) (fid : String) (now : Int)
    (db : List Event) (windowMin threshold : Int) :
    (e.eventType ≠ "forbidden" → forbiddenResourceEvaluate e fid now = []) ∧
    (e.eventType = "forbidden" →
      ((forbiddenResourceEvaluate e fid now ≠ []) ↔ specSensitiveHit e = true) ∧
      (∀ a ∈ forbiddenResourceEvaluate e fid now,
        forbiddenResourceEvaluate e fid now = [a] ∧ a.severity = SeverityCritical ∧
        ∃ rt, matchedSensitiveCategory e = some rt ∧
          List.lookup "resource_type" a.evidence = some (.str rt) ∧
          List.lookup "raw_event" a.evidence = some (.raw e.raw))) ∧
    (e.eventType = "forbidden" → e.resource = "secrets/db-password" →
      failedLoginEvaluate windowMin threshold db e fid now = [] ∧
      apiKeyCreationEvaluate e fid now = [] ∧
      ∃ a, forbiddenResourceEvaluate e fid now = [a] ∧ a.severity = SeverityCritical) := by
  refine ⟨?_, ?_, ?_⟩
  · intro hne
    unfold forbiddenResourceEvaluate
    rw [if_pos hne]
  · intro hty
    constructor
    · rw [specSensitiveHit_eq_any]
      unfold forbiddenResourceEvaluate
      rw [if_neg (by simp [hty])]
      cases hm : matchedSensitiveCategory e with
      | none =>
        have hall := List.find?_eq_none.mp hm
        simp only [ne_eq, not_true_eq_false, false_iff]
        rw [List.any_eq_true]
        rintro ⟨cat, hcat, hp⟩
        exact hall cat hcat hp
      | some rt =>
        have hmem : rt ∈ sensitiveResources := List.mem_of_find?_eq_some hm
        have hp : sensitiveMatch e rt = true := List.find?_some hm
        simp only [ne_eq, List.cons_ne_nil, not_false_eq_true, true_iff]
        rw [List.any_eq_true]
        exact ⟨rt, hmem, hp⟩
    · intro a ha
      unfold forbiddenResourceEvaluate at ha ⊢
      rw [if_neg (by simp [hty])] at ha ⊢
      cases hm : matchedSensitiveCategory e with
      | none =>
        rw [hm] at ha
        exact absurd ha (List.not_mem_nil a)
      | some rt =>
        rw [hm] at ha
        have hae := List.mem_singleton.mp ha
        subst hae
        exact ⟨rfl, rfl, rt, rfl, by simp [List.lookup], by simp [List.lookup]⟩
  · intro hty hres
    refine ⟨?_, ?_, ?_⟩
    · unfold failedLoginEvaluate
      rw [if_pos (by simp [hty])]
    · unfold apiKeyCreationEvaluate
      rw [if_pos (by simp [hty])]
    · have hp : sensitiveMatch e "secrets" = true := by
        unfold sensitiveMatch
        rw [hres]
        have h1 : (("secrets/db-password" : String) ≠ "" &&
            contains "secrets/db-password" "secrets") = true := by decide
        rw [h1, Bool.true_or]
      cases hm : matchedSensitiveCategory e with
      | none =>
        exact absurd hp (by simpa using List.find?_eq_none.mp hm "secrets" (by decide))
      | some rt =>
        unfold forbiddenResourceEvaluate
        rw [if_neg (by simp [hty]), hm]
        exact ⟨_, rfl, rfl⟩

/-- Witness for C7: the concrete `forbidden` event on `secrets/db-password`
yields one CRITICAL alert from the forbidden-resource rule with the matched
category in its evidence, and no alert from the other two active rules. -/
theorem forbidden_resource_rule_witness :
    failedLoginEvaluate defaultFailedLoginWindowMin defaultFailedLoginThreshold
      sampleDb5 forbiddenSample "f3" 1000 = [] ∧
    apiKeyCreationEvaluate forbiddenSample "f3" 1000 = [] ∧
    (∃ a, forbiddenResourceEvaluate forbiddenSample "f3" 1000 = [a] ∧
      a.severity = SeverityCritical) ∧
    ((forbiddenResourceEvaluate forbiddenSample "f3" 1000 ≠ []) ↔
      specSensitiveHit forbiddenSample = true) := by
  have h := forbidden_resource_rule forbiddenSample "f3" 1000 sampleDb5
    defaultFailedLoginWindowMin defaultFailedLoginThreshold
  have h3 := h.2.2 rfl rfl
  exact ⟨h3.1, h3.2.1, h3.2.2, (h.2.1 rfl).1⟩

/-- C10: every alert any of the three active rules returns is created OPEN,
carries the freshly generated id it was given, has severity HIGH or CRITICAL
(HIGH for failed-login and API-key-creation, CRITICAL for
forbidden-sensitive-resource), and references at least one event id; in
particular the failed-login rule falls back to the triggering event's own id
(and its IP) whenever the aggregated arrays from the window query parse to
empty. -/
theorem alert_invariants :
    (∀ (windowMin threshold : Int) (db : List Event) (e : Event) (fid : String) (now : Int),
      ∀ a ∈ failedLoginEvaluate windowMin threshold db e fid now,
        a.status = AlertStatusOpen ∧ a.id = fid ∧ a.severity = SeverityHigh ∧
        a.eventRefs ≠ [] ∧
        (parseUUIDArray (failedLoginIdsStr db e.actor now windowMin) = [] →
          a.eventRefs = [e.id]) ∧
        (parseStringArray (failedLoginIpsStr db e.actor now windowMin) = [] →
          List.lookup "ip_addresses" a.evidence = some (.strList [e.ip]))) ∧
    (∀ (e : Event) (fid : String) (now : Int), ∀ a ∈ forbiddenResourceEvaluate e fid now,
      a.status = AlertStatusOpen ∧ a.id = fid ∧ a.severity = SeverityCritical ∧
      a.eventRefs = [e.id]) ∧
    (∀ (e : Event) (fid : String) (now : Int), ∀ a ∈ apiKeyCreationEvaluate e fid now,
      a.status = AlertStatusOpen ∧ a.id = fid ∧ a.severity = SeverityHigh ∧
      a.eventRefs = [e.id]) := by
  refine ⟨?_, ?_, ?_⟩
  · intro windowMin threshold db e fid now a ha
    unfold failedLoginEvaluate failedLoginBuild at ha
    split_ifs at ha with h1 h2 h3
    · exact absurd ha (List.not_mem_nil a)
    · exact absurd ha (List.not_mem_nil a)
    · have hae := List.mem_singleton.mp ha
      subst hae
      refine ⟨rfl, rfl, rfl, ?_, ?_, ?_⟩
      · show failedLoginEventRefs (failedLoginIdsStr db e.actor now windowMin) e ≠ []
        unfold failedLoginEventRefs
        by_cases hp : parseUUIDArray (failedLoginIdsStr db e.actor now windowMin) = []
        · simp [hp]
        · simp [hp]
      · intro hp
        show failedLoginEventRefs (failedLoginIdsStr db e.actor now windowMin) e = [e.id]
        unfold failedLoginEventRefs
        simp [hp]
      · intro hp
        have hiplist : failedLoginIPList (failedLoginIpsStr db e.actor now windowMin) e =
            [e.ip] := by
          unfold failedLoginIPList
          simp [hp]
        simp [List.lookup, hiplist]
    · exact absurd ha (List.not_mem_nil a)
  · intro e fid now a ha
    unfold forbiddenResourceEvaluate at ha
    split_ifs at ha with h1
    · exact absurd ha (List.not_mem_nil a)
    · cases hm : matchedSensitiveCategory e with
      | none =>
        rw [hm] at ha
        exact absurd ha (List.not_mem_nil a)
      | some rt =>
        rw [hm] at ha
        have hae := List.mem_singleton.mp ha
        subst hae
        exact ⟨rfl, rfl, rfl, rfl⟩
  · intro e fid now a ha
    unfold apiKeyCreationEvaluate at ha
    split_ifs at ha with h1
    · exact absurd ha (List.not_mem_nil a)
    · have hae := List.mem_singleton.mp ha
      subst hae
      exact ⟨rfl, rfl, rfl, rfl⟩

/-- Witness for C10: the concrete `apiKey.create` event yields an alert that
is OPEN, carries the supplied fresh id, has HIGH severity and references the
triggering event. -/
theorem alert_invariants_witness :
    ∃ a, a ∈ apiKeyCreationEvaluate apiKeySample "f4" 1000 ∧
      a.status = AlertStatusOpen ∧ a.id = "f4" ∧ a.severity = SeverityHigh ∧
      a.eventRefs = [apiKeySample.id] := by
  rcases h0 : apiKeyCreationEvaluate apiKeySample "f4" 1000 with _ | ⟨a, rest⟩
  · exact absurd h0 (by decide)
  · have hmem : a ∈ apiKeyCreationEvaluate apiKeySample "f4" 1000 := by
      rw [h0]
      exact List.mem_cons_self a rest
    have h := alert_invariants.2.2 apiKeySample "f4" 1000 a hmem
    exact ⟨a, List.mem_cons_self a rest, h.1, h.2.1, h.2.2.1, h.2.2.2⟩
